import Mathlib

/-!
Verification development for the mapbuddy endpoints: a shallow embedding of
the identifier-resolution, predicate-building, geometry-translation, and
handler logic of the `/convert`, `/bulk` and `/locate` API routes, together
with theorems settling the behavioural claims about them.

Numbers carried by geometries are modelled as rationals; upstream HTTP
calls are modelled as explicit function parameters mapping the request
data the code sends to the response the service returns.
-/

namespace MapBuddy

/-- The apostrophe character (ASCII 39). -/
def quoteChar : Char := Char.ofNat 39

/-- Whitespace characters relevant to the JS `\s` class on the ASCII inputs
handled here: space, tab, LF, CR. -/
def isSpaceChar (c : Char) : Bool := c = ' ' || c = '\t' || c = '\n' || c = '\r'

/-- `String.prototype.trim`: strip leading and trailing whitespace. -/
def trimChars (l : List Char) : List Char :=
  ((l.dropWhile isSpaceChar).reverse.dropWhile isSpaceChar).reverse

/-- JS `s.trim()`. -/
def jsTrim (s : String) : String := ⟨trimChars s.data⟩

/-- JS `s.toUpperCase()` (ASCII). -/
def jsUpper (s : String) : String := ⟨s.data.map Char.toUpper⟩

/-- JS `s.toLowerCase()` (ASCII). -/
def jsLower (s : String) : String := ⟨s.data.map Char.toLower⟩

/-- JS `||` on strings: the left operand unless it is falsy (empty). -/
def jsOr (a b : String) : String := if a = "" then b else a

/-- JS `s.startsWith(pre)`. -/
def startsWithStr (s pre : String) : Bool := pre.data.isPrefixOf s.data

/-- `String(v).replace(/'/g, "''")` on the character list. -/
def escChars : List Char → List Char
  | [] => []
  | c :: cs =>
    if c = quoteChar then quoteChar :: quoteChar :: escChars cs
    else c :: escChars cs

/-- The `esc` helper shared by the endpoints: double every single quote. -/
def esc (v : String) : String := ⟨escChars v.data⟩

/-- JS global replace of the hyphen with the empty string. -/
def removeHyphens (s : String) : String := ⟨s.data.filter (· ≠ '-')⟩

/-- JS `s.replace(/\s+/g, "")`. -/
def removeWs (s : String) : String := ⟨s.data.filter (fun c => !isSpaceChar c)⟩

/-- JS global replace of the hyphen with a space. -/
def hyphensToSpaces (s : String) : String :=
  ⟨s.data.map (fun c => if c = '-' then ' ' else c)⟩

/-- Auxiliary for `v.replace(/\s+/g, "-")`: replace each maximal whitespace
run with a single hyphen.  The flag records whether we are inside a run. -/
def collapseWsAux : Bool → List Char → List Char
  | _, [] => []
  | inRun, c :: cs =>
    if isSpaceChar c then
      if inRun then collapseWsAux true cs else '-' :: collapseWsAux true cs
    else c :: collapseWsAux false cs

/-- JS `v.replace(/\s+/g, "-")`. -/
def wsRunsToHyphens (s : String) : String := ⟨collapseWsAux false s.data⟩

/-- JS `s.replace(/(\d+)([A-Za-z]+)/, sep-template)`: rewrite the first
maximal digit run that is immediately followed by a letter run, inserting
`sep` between the two runs; unchanged when no such run exists. -/
def replaceDigitsLetters (sep : Char) : List Char → List Char
  | [] => []
  | c :: cs =>
    if c.isDigit then
      let ds := (c :: cs).takeWhile Char.isDigit
      let rest := (c :: cs).dropWhile Char.isDigit
      match rest with
      | r :: _ =>
        if r.isAlpha then
          ds ++ [sep] ++ rest.takeWhile Char.isAlpha ++ rest.dropWhile Char.isAlpha
        else c :: replaceDigitsLetters sep cs
      | [] => c :: replaceDigitsLetters sep cs
    else c :: replaceDigitsLetters sep cs

/-- The source's TMDL id-shape regex `^(\d+)\s*-?\s*([A-Z]{2})$`: one or more
digits, optional whitespace, an optional hyphen, optional whitespace, and
exactly two upper-case letters at the end.  Returns the digit group and the
two-letter suffix group on a match. -/
def numSuffix2 (l : List Char) : Option (List Char × List Char) :=
  let ds := l.takeWhile Char.isDigit
  let r1 := l.dropWhile Char.isDigit
  if ds.isEmpty then none
  else
    let r2 := r1.dropWhile isSpaceChar
    let r3 := match r2 with
      | '-' :: t => t
      | _ => r2
    let r4 := r3.dropWhile isSpaceChar
    match r4 with
    | [a, b] => if a.isUpper && b.isUpper then some (ds, [a, b]) else none
    | _ => none

/-- The regex written in the claim under audit, `^(\d+)\s*-?\s*([A-Za-z]{2,})$`
(two OR MORE letters).  Kept separate from `numSuffix2` so the claim's own
matching condition can be stated and compared with the source's. -/
def claimNumSuffix (l : List Char) : Option (List Char × List Char) :=
  let ds := l.takeWhile Char.isDigit
  let r1 := l.dropWhile Char.isDigit
  if ds.isEmpty then none
  else
    let r2 := r1.dropWhile isSpaceChar
    let r3 := match r2 with
      | '-' :: t => t
      | _ => r2
    let r4 := r3.dropWhile isSpaceChar
    if r4.length ≥ 2 && r4.all Char.isAlpha then some (ds, r4) else none

/-- `tmdlVariants` from api/convert.js and api/locate.js: on a
digits + two-letter-suffix id return the concatenated, hyphenated and spaced
forms; otherwise return the normalized original, the hyphen-stripped and
whitespace-stripped forms, and the first digits-letters run rewritten with a
hyphen and with a space. -/
def tmdlVariants (assetId : String) : List String :=
  let s := jsUpper (jsTrim assetId)
  match numSuffix2 s.data with
  | some (num, suf) =>
      [⟨num ++ suf⟩, ⟨num⟩ ++ "-" ++ ⟨suf⟩, ⟨num⟩ ++ " " ++ ⟨suf⟩]
  | none =>
      [s, removeHyphens s, removeWs s,
       ⟨replaceDigitsLetters '-' s.data⟩, ⟨replaceDigitsLetters ' ' s.data⟩]

/-- `buildWhereExact(fields, value, useVariants)`: disjunction, fields outer
and variants inner, of `UPPER(field) = UPPER('escaped-variant')`. -/
def buildWhereExact (fields : List String) (value : String) (useVariants : Bool) : String :=
  let vals := if useVariants then tmdlVariants value else [value]
  let ors := fields.flatMap (fun f => vals.map (fun v =>
    "UPPER(" ++ f ++ ") = UPPER('" ++ esc v ++ "')"))
  String.intercalate " OR " ors

/-- JS `Set.add` on a dedup-preserving list: append unless present. -/
def addPattern (l : List String) (x : String) : List String :=
  if x ∈ l then l else l ++ [x]

/-- The LIKE-pass pattern set of `buildWhereLike`, in `Set` insertion order. -/
def likePatterns (vals : List String) : List String :=
  vals.foldl (fun acc v =>
    addPattern (addPattern (addPattern acc ("%" ++ v ++ "%"))
      ("%" ++ hyphensToSpaces v ++ "%")) ("%" ++ wsRunsToHyphens v ++ "%")) []

/-- `buildWhereLike(fields, value, useVariants)` from api/convert.js. -/
def buildWhereLike (fields : List String) (value : String) (useVariants : Bool) : String :=
  let vals := if useVariants then tmdlVariants value else [value]
  let patterns := likePatterns vals
  let ors := fields.flatMap (fun f => patterns.map (fun p =>
    "UPPER(" ++ f ++ ") LIKE UPPER('" ++ esc p ++ "')"))
  String.intercalate " OR " ors

/-! ### Heuristic dataset auto-detection (api/convert.js) -/

/-- `isTmdlLike`: the id, trimmed and upper-cased, matches
`^(\d+)\s*-?\s*(UT|TR|SR|OF|PR)$` — the general digits + two-upper-case-letters
shape with the suffix drawn from the five TMDL suffixes. -/
def isTmdlLike (id : String) : Bool :=
  let s := jsUpper (jsTrim id)
  match numSuffix2 s.data with
  | some (_, suf) => (["UT", "TR", "SR", "OF", "PR"] : List String).contains ⟨suf⟩
  | none => false

/-- The Fairfax id shape `^WP\d{3,}$`: WP then at least three digits. -/
def isWpDigits (s : String) : Bool :=
  match s.data with
  | 'W' :: 'P' :: rest => decide (rest.length ≥ 3) && rest.all Char.isDigit
  | _ => false

/-- `guessDatasetFromId` from api/convert.js: WP-prefixed ids go to Fairfax,
LOD_-prefixed ids to the SHA landscape layer, TMDL-shaped ids to the grouped
TMDL pseudo-dataset; anything else yields no dataset. -/
def guessDatasetFromId (id : String) : Option String :=
  if id = "" then none
  else
    let s := jsUpper (jsTrim id)
    if isWpDigits s then some "fairfax_bmps"
    else if startsWithStr s "LOD_" then some "mdsha_landscape"
    else if isTmdlLike s then some "mdsha_tmdl_any"
    else none

/-! ### Data model: attributes, ESRI geometry, GeoJSON-style features -/

/-- A scalar attribute value: string, number or null. -/
inductive AValue
  | str (s : String)
  | num (q : ℚ)
  | null
deriving DecidableEq, Repr

/-- The native ESRI geometry payload of an upstream feature: any of the
`rings`, `paths` and `x`/`y` members may be present; the translator checks
them in that order. -/
structure EsriGeometry where
  rings : Option (List (List (ℚ × ℚ))) := none
  paths : Option (List (List (ℚ × ℚ))) := none
  xy : Option (ℚ × ℚ) := none
deriving DecidableEq, Repr

/-- An upstream feature as returned with `f=json`. -/
structure EsriFeature where
  attributes : List (String × AValue) := []
  geometry : EsriGeometry := {}
deriving DecidableEq, Repr

/-- The internal GeoJSON-style geometry model (the variants the endpoints
produce and consume). -/
inductive Geometry
  | point (c : ℚ × ℚ)
  | multiPoint (cs : List (ℚ × ℚ))
  | lineString (cs : List (ℚ × ℚ))
  | multiLineString (cs : List (List (ℚ × ℚ)))
  | polygon (rings : List (List (ℚ × ℚ)))
  | multiPolygon (polys : List (List (List (ℚ × ℚ))))
deriving DecidableEq, Repr

/-- A GeoJSON-style feature: properties plus geometry. -/
structure Feature where
  properties : List (String × AValue) := []
  geometry : Geometry
deriving DecidableEq, Repr

/-- `esriToGeoJSONFeature` from api/convert.js: a `rings` array becomes a
Polygon holding the whole array; a `paths` array becomes a LineString when it
has exactly one path and a MultiLineString otherwise; a numeric `x`/`y` pair
becomes a Point; anything else translates to nothing. -/
def esriToGeoJSONFeature (f : EsriFeature) : Option Feature :=
  let geom : Option Geometry :=
    match f.geometry.rings with
    | some rs => some (.polygon rs)
    | none =>
      match f.geometry.paths with
      | some ps =>
        some (match ps with
          | [p] => .lineString p
          | _ => .multiLineString ps)
      | none =>
        match f.geometry.xy with
        | some c => some (.point c)
        | none => none
  geom.map fun gm => { properties := f.attributes, geometry := gm }

/-- JS object-literal update `{...props, k: v}` restricted to one key: replace
the value at `k` in place when the key exists, else append the pair. -/
def setProp (props : List (String × AValue)) (k : String) (v : AValue) :
    List (String × AValue) :=
  if props.any (·.1 = k) then props.map (fun p => if p.1 = k then (k, v) else p)
  else props ++ [(k, v)]

/-- JS property read: the value at the first occurrence of the key. -/
def lookupProp (props : List (String × AValue)) (k : String) : Option AValue :=
  (props.find? (·.1 = k)).map (·.2)

/-- The provenance injection of the api/convert.js handler: spread the
upstream properties and set `_assetId`, `_dataset`, `_sourceLabel` and
`_matchMode`. -/
def injectProv (props : List (String × AValue)) (assetId key lbl pass : String) :
    List (String × AValue) :=
  setProp (setProp (setProp (setProp props "_assetId" (.str assetId))
    "_dataset" (.str key)) "_sourceLabel" (.str lbl)) "_matchMode" (.str pass)

/-- The provenance tagging of the matched feature in the api/convert.js
handler. -/
def tagFeature (f : Feature) (assetId key lbl pass : String) : Feature :=
  { f with properties := injectProv f.properties assetId key lbl pass }

/-! ### The dataset registry of api/convert.js -/

/-- One dataset entry: upstream layer URL, candidate id fields, label. -/
structure Dataset where
  base : String
  idFields : List String
  label : String
deriving DecidableEq, Repr

/-- The id-field list shared by most TMDL layers in api/convert.js. -/
def tmdlFields : List String :=
  ["SWM_FAC_NO", "ASSET_ID", "STRU_ID", "NAME", "PROJECT_ID", "STRUCTURE_ID",
   "STRUCT_ID", "FACILITY_ID", "FACILITYID"]

/-- The `DATASETS` registry of api/convert.js. -/
def DATASETS : List (String × Dataset) :=
  [("fairfax_bmps",
    { base := "https://www.fairfaxcounty.gov/mercator/rest/services/DPWES/StwFieldMap/MapServer/7",
      idFields := ["FACILITY_ID"],
      label := "Fairfax — Stormwater Facilities" }),
   ("mdsha_landscape",
    { base := "https://maps.roads.maryland.gov/arcgis/rest/services/OED_Env_Assets_Mgr/OED_Environmental_Assets_WGS84_Maryland_MDOTSHA/MapServer/0",
      idFields := ["LOD_ID"],
      label := "MDOT SHA — Managed Landscape" }),
   ("mdsha_tmdl_structures",
    { base := "https://maps.roads.maryland.gov/arcgis/rest/services/BayRestoration/TMDLBayRestorationViewer_Maryland_MDOTSHA/FeatureServer/0",
      idFields := tmdlFields,
      label := "TMDL — Stormwater Control Structures" }),
   ("mdsha_tmdl_retrofits",
    { base := "https://maps.roads.maryland.gov/arcgis/rest/services/BayRestoration/TMDLBayRestorationViewer_Maryland_MDOTSHA/FeatureServer/1",
      idFields := tmdlFields,
      label := "TMDL — Retrofits" }),
   ("mdsha_tmdl_tree_plantings",
    { base := "https://maps.roads.maryland.gov/arcgis/rest/services/BayRestoration/TMDLBayRestorationViewer_Maryland_MDOTSHA/FeatureServer/2",
      idFields := ["ASSET_ID", "STRU_ID", "NAME", "PROJECT_ID", "STRUCTURE_ID",
        "STRUCT_ID", "FACILITY_ID", "FACILITYID"],
      label := "TMDL — Tree Plantings" }),
   ("mdsha_tmdl_pavement_removals",
    { base := "https://maps.roads.maryland.gov/arcgis/rest/services/BayRestoration/TMDLBayRestorationViewer_Maryland_MDOTSHA/FeatureServer/3",
      idFields := ["ASSET_ID", "STRU_ID", "NAME", "PROJECT_ID", "STRUCTURE_ID",
        "STRUCT_ID", "FACILITY_ID", "FACILITYID"],
      label := "TMDL — Pavement Removals" }),
   ("mdsha_tmdl_stream_restorations",
    { base := "https://maps.roads.maryland.gov/arcgis/rest/services/BayRestoration/TMDLBayRestorationViewer_Maryland_MDOTSHA/FeatureServer/4",
      idFields := ["ASSET_ID", "STRU_ID", "NAME", "PROJECT_ID", "STRUCTURE_ID",
        "STRUCT_ID", "FACILITY_ID", "FACILITYID"],
      label := "TMDL — Stream Restorations" }),
   ("mdsha_tmdl_outfall_stabilizations",
    { base := "https://maps.roads.maryland.gov/arcgis/rest/services/BayRestoration/TMDLBayRestorationViewer_Maryland_MDOTSHA/FeatureServer/5",
      idFields := ["ASSET_ID", "STRU_ID", "NAME", "PROJECT_ID", "STRUCTURE_ID",
        "STRUCT_ID", "FACILITY_ID", "FACILITYID"],
      label := "TMDL — Outfall Stabilizations" })]

/-- The layer order of the grouped TMDL pseudo-dataset (`TMDL_ANY`). -/
def TMDL_ANY : List String :=
  ["mdsha_tmdl_structures", "mdsha_tmdl_retrofits", "mdsha_tmdl_tree_plantings",
   "mdsha_tmdl_pavement_removals", "mdsha_tmdl_stream_restorations",
   "mdsha_tmdl_outfall_stabilizations"]

/-- Registry lookup `DATASETS[key]`. -/
def findDataset (key : String) : Option Dataset :=
  (DATASETS.find? (·.1 = key)).map (·.2)

/-- The candidate layer list of the handler:
`datasetKey === "mdsha_tmdl_any" ? TMDL_ANY : [datasetKey]`. -/
def targetsOf (datasetKey : String) : List String :=
  if datasetKey = "mdsha_tmdl_any" then TMDL_ANY else [datasetKey]

/-! ### The layer prober and the resolution loop of api/convert.js

The upstream ArcGIS service is modelled as a function from the request the
code sends (layer base URL and where-clause) to the response it produces. -/

/-- An upstream HTTP response as seen through `axios` with
`validateStatus: () => true`: a 200 with a feature array (a missing or
malformed `features` member is the empty array), a non-200 status, or a
thrown network error such as a timeout. -/
inductive HttpResult
  | ok (features : List EsriFeature)
  | status (code : Nat)
  | netError
deriving DecidableEq, Repr

/-- `fetchArcgisAsGeoJSON` from api/convert.js: non-200 statuses and network
errors throw; a 200 response has its feature array translated feature by
feature, dropping features with no usable geometry. -/
def fetchArcgisAsGeoJSON (u : String → String → HttpResult) (base whereClause : String) :
    Except String (List Feature) :=
  match u base whereClause with
  | .netError => .error "network error"
  | .status code => .error ("ArcGIS request failed (" ++ toString code ++ ")")
  | .ok arr => .ok (arr.filterMap esriToGeoJSONFeature)

/-- The upstream requests issued during a resolution, in order. -/
abbrev QueryLog := List (String × String)

/-- The inner loop of the api/convert.js handler: one pass (exact or like)
over the candidate layer keys, in order.  A missing registry entry is
skipped; a thrown fetch propagates (the handler has no per-layer catch); the
first layer with a nonempty translated feature list wins and its first
feature is tagged with provenance. -/
def scanKeys (u : String → String → HttpResult) (assetId pass : String) :
    List String → Except String (Option Feature) × QueryLog
  | [] => (.ok none, [])
  | key :: rest =>
    match findDataset key with
    | none => scanKeys u assetId pass rest
    | some ds =>
      let useVariants := startsWithStr key "mdsha_tmdl_"
      let whereClause :=
        if pass = "exact" then buildWhereExact ds.idFields assetId useVariants
        else buildWhereLike ds.idFields assetId useVariants
      match fetchArcgisAsGeoJSON u ds.base whereClause with
      | .error e => (.error e, [(ds.base, whereClause)])
      | .ok [] =>
        let r := scanKeys u assetId pass rest
        (r.1, (ds.base, whereClause) :: r.2)
      | .ok (f :: _) =>
        (.ok (some (tagFeature f assetId key ds.label pass)), [(ds.base, whereClause)])

/-- The outer loop of the api/convert.js handler: the passes in order, each
scanning every candidate layer, stopping at the first pass that found a
feature. -/
def scanPasses (u : String → String → HttpResult) (assetId : String)
    (targets : List String) : List String → Except String (Option Feature) × QueryLog
  | [] => (.ok none, [])
  | pass :: rest =>
    match scanKeys u assetId pass targets with
    | (.error e, log) => (.error e, log)
    | (.ok (some f), log) => (.ok (some f), log)
    | (.ok none, log) =>
      let r := scanPasses u assetId targets rest
      (r.1, log ++ r.2)

/-- The full resolution of api/convert.js: candidate layers from the dataset
key, then the pass loop with `passes = ["exact", "like"]`. -/
def resolveFeature (u : String → String → HttpResult) (assetId datasetKey : String) :
    Except String (Option Feature) × QueryLog :=
  scanPasses u assetId (targetsOf datasetKey) ["exact", "like"]

/-! ### The api/convert.js handler -/

/-- An HTTP handler outcome: a JSON error body or a file download. -/
inductive HandlerResult
  | json (status : Nat) (error : String)
  | file (contentType filename : String) (body : String)
deriving DecidableEq, Repr

/-- Characters kept by the filename sanitizer (the JS word class plus dot and
hyphen). -/
def isSafeChar (c : Char) : Bool := c.isAlphanum || c = '_' || c = '.' || c = '-'

/-- Auxiliary for the sanitizer: each maximal run of unsafe characters
becomes one underscore. -/
def safeAux : Bool → List Char → List Char
  | _, [] => []
  | inRun, c :: cs =>
    if isSafeChar c then c :: safeAux false cs
    else if inRun then safeAux true cs
    else '_' :: safeAux true cs

/-- The download-name sanitizer of api/convert.js: replace each run of
characters outside the word class, dot and hyphen with one underscore. -/
def safeName (s : String) : String := ⟨safeAux false s.data⟩

/-- The output-format normalization of api/convert.js: geojson stays geojson,
the shapefile family collapses to shapefile, everything else is kml. -/
def normFormat (format : String) : String :=
  let raw := jsLower (jsOr format "kml")
  if raw = "geojson" then "geojson"
  else if (["shapefile", "shp", "zip", "shpzip"] : List String).contains raw then "shapefile"
  else "kml"

/-- The api/convert.js handler on a POST body `{assetId, dataset, format}`
(absent body members are the empty string, matching JS falsiness).  `u` is
the upstream service, `enc` the external Mapshaper conversion, a pure
function from the matched feature and the normalized format to the produced
file, or nothing when no output file appears (which the handler turns into a
500).  The second component is the list of upstream requests issued. -/
def convertHandler (assetId dataset format : String)
    (u : String → String → HttpResult) (enc : Feature → String → Option String) :
    HandlerResult × QueryLog :=
  if assetId = "" then (.json 400 "assetId is required", [])
  else
    let datasetKey? := if dataset = "" then guessDatasetFromId assetId else some dataset
    match datasetKey? with
    | none => (.json 400 "Unknown dataset. Pick one or use a recognizable ID.", [])
    | some datasetKey =>
      match resolveFeature u assetId datasetKey with
      | (.error e, log) => (.json 500 ("Conversion failed: " ++ e), log)
      | (.ok none, log) =>
        (.json 404 ("No feature found for '" ++ assetId ++ "' in " ++
          String.intercalate ", " (targetsOf datasetKey)), log)
      | (.ok (some f), log) =>
        let outFmt := normFormat format
        match enc f outFmt with
        | none => (.json 500 "Conversion failed: Mapshaper produced no output", log)
        | some body =>
          let safe := safeName assetId
          if outFmt = "kml" then
            (.file "application/vnd.google-earth.kml+xml" (safe ++ ".kml") body, log)
          else if outFmt = "geojson" then
            (.file "application/geo+json" (safe ++ ".geojson") body, log)
          else
            (.file "application/zip" (safe ++ ".zip") body, log)

/-! ### Pass-major search order, stated independently of the loop

To characterize the search order of `resolveFeature`, the (pass, layer)
combinations are enumerated explicitly and scanned linearly. -/

/-- All (pass, layer) combinations in pass-major order: every candidate layer
on the exact pass, then every candidate layer on the like pass. -/
def passMajorPairs (targets : List String) : List (String × String) :=
  (["exact", "like"] : List String).flatMap (fun pass => targets.map (fun key => (pass, key)))

/-- Linear scan over an explicit (pass, layer) list, probing each combination
exactly as the handler's loop body does and stopping at the first match or
thrown fetch. -/
def scanPairs (u : String → String → HttpResult) (assetId : String) :
    List (String × String) → Except String (Option Feature) × QueryLog
  | [] => (.ok none, [])
  | (pass, key) :: rest =>
    match findDataset key with
    | none => scanPairs u assetId rest
    | some ds =>
      let useVariants := startsWithStr key "mdsha_tmdl_"
      let whereClause :=
        if pass = "exact" then buildWhereExact ds.idFields assetId useVariants
        else buildWhereLike ds.idFields assetId useVariants
      match fetchArcgisAsGeoJSON u ds.base whereClause with
      | .error e => (.error e, [(ds.base, whereClause)])
      | .ok [] =>
        let r := scanPairs u assetId rest
        (r.1, (ds.base, whereClause) :: r.2)
      | .ok (f :: _) =>
        (.ok (some (tagFeature f assetId key ds.label pass)), [(ds.base, whereClause)])

/-- Sequencing of one finished pass with the rest of the search: a thrown
fetch or a found feature ends the search, an empty pass hands over. -/
def passStep (first rest : Except String (Option Feature) × QueryLog) :
    Except String (Option Feature) × QueryLog :=
  match first with
  | (.error e, log) => (.error e, log)
  | (.ok (some f), log) => (.ok (some f), log)
  | (.ok none, log) => (rest.1, log ++ rest.2)

/-! ### The Predicate Builder as the specification words it

These definitions restate the spec's contract for the exact pass — a
disjunction over every (field, variant) pair of `UPPER(field) =
UPPER('variant')` with single quotes doubled — independently of the source
translation above, for comparison. -/

/-- Quote doubling as the spec words it. -/
def specQuoteDouble (v : String) : String :=
  ⟨v.data.flatMap (fun c => if c = quoteChar then [quoteChar, quoteChar] else [c])⟩

/-- Disjunction of a clause list with the OR connective. -/
def joinOr : List String → String
  | [] => ""
  | [x] => x
  | x :: y :: xs => x ++ " OR " ++ joinOr (y :: xs)

/-- The exact-mode predicate exactly as the spec describes it. -/
def specExactPredicate (fields variants : List String) : String :=
  joinOr (fields.flatMap (fun f => variants.map (fun v =>
    "UPPER(" ++ f ++ ") = UPPER('" ++ specQuoteDouble v ++ "')")))

/-! ### Percent encodings -/

/-- Upper-case hexadecimal digit of a number below 16. -/
def hexDigitChar (n : Nat) : Char :=
  if n < 10 then Char.ofNat (48 + n) else Char.ofNat (55 + n)

/-- Characters `encodeURIComponent` leaves alone (the single quote among
them). -/
def isUriUnreserved (c : Char) : Bool :=
  c.isAlphanum || c = '-' || c = '_' || c = '.' || c = '!' || c = '~' ||
  c = '*' || c = quoteChar || c = '(' || c = ')'

/-- JS `encodeURIComponent` on the ASCII strings handled here. -/
def encodeURIComponent (s : String) : String :=
  ⟨s.data.flatMap (fun c =>
    if isUriUnreserved c then [c]
    else ['%', hexDigitChar (c.toNat / 16), hexDigitChar (c.toNat % 16)])⟩

/-- Characters `URLSearchParams` serialization leaves alone. -/
def isFormSafe (c : Char) : Bool :=
  c.isAlphanum || c = '*' || c = '-' || c = '.' || c = '_'

/-- `URLSearchParams` component serialization on the ASCII strings handled
here: space becomes a plus, unsafe characters are percent-encoded. -/
def formEncodeStr (s : String) : String :=
  ⟨s.data.flatMap (fun c =>
    if c = ' ' then ['+']
    else if isFormSafe c then [c]
    else ['%', hexDigitChar (c.toNat / 16), hexDigitChar (c.toNat % 16)])⟩

/-! ### The field-by-field probe of src/api/convert.js

This /convert variant probes each candidate id field with its own upstream
request and swallows every failure: a thrown request, a non-200 status and a
response with no or an empty feature list all advance to the next field, and
exhaustion returns nothing. -/

/-- A dataset entry of this variant: base URL and candidate id fields. -/
structure CDataset where
  base : String
  idFields : List String
deriving DecidableEq, Repr

/-- The `DATASETS` registry of this /convert variant. -/
def CONVERT_DATASETS : List (String × CDataset) :=
  [("fairfax_bmps",
    { base := "https://www.fairfaxcounty.gov/mercator/rest/services/DPWES/StwFieldMap/MapServer/7",
      idFields := ["FACILITY_ID"] }),
   ("mdsha_landscape",
    { base := "https://maps.roads.maryland.gov/arcgis/rest/services/OED_Env_Assets_Mgr/OED_Environmental_Assets_WGS84_Maryland_MDOTSHA/MapServer/0",
      idFields := ["LOD_ID"] }),
   ("mdsha_tmdl_structures",
    { base := "https://maps.roads.maryland.gov/arcgis/rest/services/BayRestoration/TMDLBayRestorationViewer_Maryland_MDOTSHA/MapServer/0",
      idFields := ["SWM_FAC_NO", "NAME", "PROJECT_ID"] }),
   ("mdsha_tmdl_retrofits",
    { base := "https://maps.roads.maryland.gov/arcgis/rest/services/BayRestoration/TMDLBayRestorationViewer_Maryland_MDOTSHA/MapServer/1",
      idFields := ["SWM_FAC_NO", "NAME", "PROJECT_ID"] }),
   ("mdsha_tmdl_tree_plantings",
    { base := "https://maps.roads.maryland.gov/arcgis/rest/services/BayRestoration/TMDLBayRestorationViewer_Maryland_MDOTSHA/MapServer/2",
      idFields := ["STRU_ID", "NAME", "PROJECT_ID", "ASSET_ID"] }),
   ("mdsha_tmdl_pavement_removals",
    { base := "https://maps.roads.maryland.gov/arcgis/rest/services/BayRestoration/TMDLBayRestorationViewer_Maryland_MDOTSHA/MapServer/3",
      idFields := ["STRU_ID", "NAME", "PROJECT_ID", "ASSET_ID"] }),
   ("mdsha_tmdl_stream_restorations",
    { base := "https://maps.roads.maryland.gov/arcgis/rest/services/BayRestoration/TMDLBayRestorationViewer_Maryland_MDOTSHA/MapServer/4",
      idFields := ["STRU_ID", "NAME", "PROJECT_ID", "ASSET_ID"] }),
   ("mdsha_tmdl_outfall_stabilizations",
    { base := "https://maps.roads.maryland.gov/arcgis/rest/services/BayRestoration/TMDLBayRestorationViewer_Maryland_MDOTSHA/MapServer/5",
      idFields := ["STRU_ID", "NAME", "PROJECT_ID", "ASSET_ID"] })]

/-- Registry lookup for this variant. -/
def findConvertDataset (key : String) : Option CDataset :=
  (CONVERT_DATASETS.find? (·.1 = key)).map (·.2)

/-- `arcgisGeojsonUrl(base, field, value)`: the where clause
`field='value'` percent-encoded into the query URL (the value is embedded
without quote escaping here). -/
def arcgisGeojsonUrl (base field value : String) : String :=
  base ++ "/query?where=" ++ encodeURIComponent (field ++ "='" ++ value ++ "'") ++
  "&outFields=*&returnGeometry=true&outSR=4326&f=geojson"

/-- An upstream response as seen through `axios` with
`validateStatus: () => true` and `f=geojson`: either a status with an
optional GeoJSON feature list (missing when the payload is malformed), or a
thrown network error. -/
inductive AxiosResult
  | resp (status : Nat) (features : Option (List Feature))
  | thrown
deriving DecidableEq, Repr

/-- The field loop of `fetchOneFeatureAsGeoJSON`: a thrown request, a
non-200 status, a malformed payload and an empty feature list all fall
through to the next candidate field. -/
def probeFields (u : String → AxiosResult) (base assetId : String) :
    List String → Option Feature
  | [] => none
  | f :: rest =>
    match u (arcgisGeojsonUrl base f assetId) with
    | .thrown => probeFields u base assetId rest
    | .resp status feats? =>
      if status = 200 then
        match feats? with
        | some (x :: _) => some x
        | _ => probeFields u base assetId rest
      else probeFields u base assetId rest

/-- `fetchOneFeatureAsGeoJSON(datasetKey, assetId)` from src/api/convert.js:
the first feature found over the candidate id fields, or nothing — with no
distinction between upstream failures and zero-feature responses. -/
def fetchOneFeatureAsGeoJSON (u : String → AxiosResult) (datasetKey assetId : String) :
    Option Feature :=
  match findConvertDataset datasetKey with
  | none => none
  | some cfg => probeFields u cfg.base assetId cfg.idFields

/-! ### The sequential bulk variant of src/api/bulk.js (registry + manifest) -/

/-- A dataset entry of the sequential bulk variant. -/
structure BDataset where
  base : String
  idField : String
  label : String
deriving DecidableEq, Repr

/-- The `DATASETS` registry of the sequential bulk variant. -/
def BULK_DATASETS : List (String × BDataset) :=
  [("fairfax_bmps",
    { base := "https://www.fairfaxcounty.gov/mercator/rest/services/DPWES/StwFieldMap/MapServer/7",
      idField := "FACILITY_ID",
      label := "Fairfax — Stormwater Facilities (FACILITY_ID)" }),
   ("mdsha_landscape",
    { base := "https://maps.roads.maryland.gov/arcgis/rest/services/OED_Env_Assets_Mgr/OED_Environmental_Assets_WGS84_Maryland_MDOTSHA/MapServer/0",
      idField := "LOD_ID",
      label := "MDOT SHA — Managed Landscape (LOD_ID)" }),
   ("mdsha_tmdl_structures",
    { base := "https://maps.roads.maryland.gov/arcgis/rest/services/BayRestoration/TMDLBayRestorationViewer_Maryland_MDOTSHA/MapServer/0",
      idField := "SWM_FAC_NO",
      label := "TMDL — Stormwater Control Structures" }),
   ("mdsha_tmdl_retrofits",
    { base := "https://maps.roads.maryland.gov/arcgis/rest/services/BayRestoration/TMDLBayRestorationViewer_Maryland_MDOTSHA/MapServer/1",
      idField := "SWM_FAC_NO",
      label := "TMDL — Retrofits" }),
   ("mdsha_tmdl_tree_plantings",
    { base := "https://maps.roads.maryland.gov/arcgis/rest/services/BayRestoration/TMDLBayRestorationViewer_Maryland_MDOTSHA/MapServer/2",
      idField := "STRU_ID",
      label := "TMDL — Tree Plantings" }),
   ("mdsha_tmdl_pavement_removals",
    { base := "https://maps.roads.maryland.gov/arcgis/rest/services/BayRestoration/TMDLBayRestorationViewer_Maryland_MDOTSHA/MapServer/3",
      idField := "STRU_ID",
      label := "TMDL — Pavement Removals" }),
   ("mdsha_tmdl_stream_restorations",
    { base := "https://maps.roads.maryland.gov/arcgis/rest/services/BayRestoration/TMDLBayRestorationViewer_Maryland_MDOTSHA/MapServer/4",
      idField := "STRU_ID",
      label := "TMDL — Stream Restorations" }),
   ("mdsha_tmdl_outfall_stabilizations",
    { base := "https://maps.roads.maryland.gov/arcgis/rest/services/BayRestoration/TMDLBayRestorationViewer_Maryland_MDOTSHA/MapServer/5",
      idField := "STRU_ID",
      label := "TMDL — Outfall Stabilizations" })]

/-- Registry lookup for the sequential bulk variant. -/
def findBulkDataset (key : String) : Option BDataset :=
  (BULK_DATASETS.find? (·.1 = key)).map (·.2)

/-- The em-dash tolerance of the alias table: each em-dash becomes a
hyphen. -/
def emDashToHyphen (s : String) : String :=
  ⟨s.data.map (fun c => if c = '—' then '-' else c)⟩

/-- The `ALIASES` map of the sequential bulk variant, in insertion order:
key, label and hyphen-tolerant label for every dataset, plus the hard-coded
short forms.  No two entries with different targets share an alias, so
first-match lookup coincides with the JS `Map`. -/
def aliasEntries : List (String × String) :=
  BULK_DATASETS.flatMap (fun kv =>
    [(jsLower kv.1, kv.1), (jsLower kv.2.label, kv.1),
     (jsLower (emDashToHyphen kv.2.label), kv.1)]) ++
  [("fairfax", "fairfax_bmps"), ("mdot sha landscape", "mdsha_landscape"),
   ("tmdl structures", "mdsha_tmdl_structures"),
   ("tmdl retrofits", "mdsha_tmdl_retrofits"),
   ("tmdl trees", "mdsha_tmdl_tree_plantings")]

/-- `normalizeDs`: resolve an alias to its canonical key, falling back to the
trimmed input. -/
def normalizeDs (d : String) : String :=
  if d = "" then ""
  else
    match (aliasEntries.find? (·.1 = jsLower (jsTrim d))).map (·.2) with
    | some key => key
    | none => jsTrim d

/-- The `where` helper of the sequential bulk variant. -/
def whereB (field val : String) : String := field ++ "='" ++ esc val ++ "'"

/-- An upstream response as seen through plain `axios.get` (default
`validateStatus`): non-2xx statuses and network failures both throw. -/
inductive BulkAxios
  | ok (features : Option (List Feature))
  | thrown (msg : String)
deriving DecidableEq, Repr

/-- `fetchFeature(datasetKey, assetId)` of the sequential bulk variant: an
unknown dataset and a thrown request are errors, otherwise the first feature
when the feature list is nonempty. -/
def fetchFeatureB (u : String → BulkAxios) (datasetKey assetId : String) :
    Except String (Option Feature) :=
  match findBulkDataset datasetKey with
  | none => .error ("Unknown dataset '" ++ datasetKey ++ "'")
  | some d =>
    match u (d.base ++ "/query?where=" ++ encodeURIComponent (whereB d.idField assetId) ++
        "&outFields=*&returnGeometry=true&outSR=4326&f=geojson") with
    | .thrown msg => .error msg
    | .ok feats? =>
      match feats?.getD [] with
      | [] => .ok none
      | x :: _ => .ok (some x)

/-- Classification of one bulk row into the hits list or the manifest. -/
inductive RowOutcome
  | hit (assetId datasetKey : String) (f : Feature)
  | miss (assetId datasetKey reason : String)
  | dropped
deriving DecidableEq, Repr

/-- The per-row logic of the sequential bulk handler: rows with no asset id
are dropped, rows with no dataset are missed with "missing dataset", and the
fetch — its errors swallowed by `.catch(() => null)` — yields either a hit or
a "not found" miss. -/
def bulkRowOutcome (u : String → BulkAxios) (defaultDataset : String)
    (row : String × String) : RowOutcome :=
  let assetId := jsTrim row.1
  let datasetKey := normalizeDs (jsOr row.2 defaultDataset)
  if assetId = "" || datasetKey = "" then
    if assetId ≠ "" then .miss assetId datasetKey "missing dataset" else .dropped
  else
    match fetchFeatureB u datasetKey assetId with
    | .error _ => .miss assetId datasetKey "not found"
    | .ok none => .miss assetId datasetKey "not found"
    | .ok (some f) => .hit assetId datasetKey f

/-! ### The pooled bulk variant of src/api/bulk.js (runPool + doOne) -/

/-- A dataset entry of the pooled bulk variant; the grouped TMDL
pseudo-dataset carries its sublayers as (base, idField) pairs instead. -/
structure B2Def where
  base : String := ""
  idField : String := ""
  layers : List (String × String) := []
deriving DecidableEq, Repr

/-- The TMDL sublayer order of the pooled bulk variant's `mdsha_tmdl_any`. -/
def B2_TMDL_LAYERS : List (String × String) :=
  [("https://maps.roads.maryland.gov/arcgis/rest/services/BayRestoration/TMDLBayRestorationViewer_Maryland_MDOTSHA/MapServer/2", "STRU_ID"),
   ("https://maps.roads.maryland.gov/arcgis/rest/services/BayRestoration/TMDLBayRestorationViewer_Maryland_MDOTSHA/MapServer/0", "SWM_FAC_NO"),
   ("https://maps.roads.maryland.gov/arcgis/rest/services/BayRestoration/TMDLBayRestorationViewer_Maryland_MDOTSHA/MapServer/1", "SWM_FAC_NO"),
   ("https://maps.roads.maryland.gov/arcgis/rest/services/BayRestoration/TMDLBayRestorationViewer_Maryland_MDOTSHA/MapServer/3", "STRU_ID"),
   ("https://maps.roads.maryland.gov/arcgis/rest/services/BayRestoration/TMDLBayRestorationViewer_Maryland_MDOTSHA/MapServer/4", "STRU_ID"),
   ("https://maps.roads.maryland.gov/arcgis/rest/services/BayRestoration/TMDLBayRestorationViewer_Maryland_MDOTSHA/MapServer/5", "STRU_ID")]

/-- The `DATASETS` registry of the pooled bulk variant. -/
def B2_DATASETS : List (String × B2Def) :=
  [("fairfax_bmps",
    { base := "https://www.fairfaxcounty.gov/mercator/rest/services/DPWES/StwFieldMap/MapServer/7",
      idField := "FACILITY_ID" }),
   ("mdsha_landscape",
    { base := "https://maps.roads.maryland.gov/arcgis/rest/services/OED_Env_Assets_Mgr/OED_Environmental_Assets_WGS84_Maryland_MDOTSHA/MapServer/0",
      idField := "LOD_ID" }),
   ("mdsha_tmdl_any", { layers := B2_TMDL_LAYERS }),
   ("mdsha_tmdl_structures",
    { base := "https://maps.roads.maryland.gov/arcgis/rest/services/BayRestoration/TMDLBayRestorationViewer_Maryland_MDOTSHA/MapServer/0",
      idField := "SWM_FAC_NO" }),
   ("mdsha_tmdl_retrofits",
    { base := "https://maps.roads.maryland.gov/arcgis/rest/services/BayRestoration/TMDLBayRestorationViewer_Maryland_MDOTSHA/MapServer/1",
      idField := "SWM_FAC_NO" }),
   ("mdsha_tmdl_tree_plantings",
    { base := "https://maps.roads.maryland.gov/arcgis/rest/services/BayRestoration/TMDLBayRestorationViewer_Maryland_MDOTSHA/MapServer/2",
      idField := "STRU_ID" }),
   ("mdsha_tmdl_pavement_removals",
    { base := "https://maps.roads.maryland.gov/arcgis/rest/services/BayRestoration/TMDLBayRestorationViewer_Maryland_MDOTSHA/MapServer/3",
      idField := "STRU_ID" }),
   ("mdsha_tmdl_stream_restorations",
    { base := "https://maps.roads.maryland.gov/arcgis/rest/services/BayRestoration/TMDLBayRestorationViewer_Maryland_MDOTSHA/MapServer/4",
      idField := "STRU_ID" }),
   ("mdsha_tmdl_outfall_stabilizations",
    { base := "https://maps.roads.maryland.gov/arcgis/rest/services/BayRestoration/TMDLBayRestorationViewer_Maryland_MDOTSHA/MapServer/5",
      idField := "STRU_ID" })]

/-- Registry lookup for the pooled bulk variant. -/
def findB2Dataset (key : String) : Option B2Def :=
  (B2_DATASETS.find? (·.1 = key)).map (·.2)

/-- `qUrl(base, idField, idVal)` of the pooled bulk variant: the id value is
percent-encoded, its quotes doubled, wrapped in quotes, and the parameter
list is serialized as `URLSearchParams` does. -/
def qUrl (base idField idVal : String) : String :=
  base ++ "/query?" ++ String.intercalate "&"
    (([("where", idField ++ "='" ++ esc (encodeURIComponent idVal) ++ "'"),
       ("outFields", "*"), ("returnGeometry", "true"), ("outSR", "4326"),
       ("f", "json")] : List (String × String)).map
      (fun p => formEncodeStr p.1 ++ "=" ++ formEncodeStr p.2))

/-- An upstream response of the pooled bulk variant, seen through plain
`axios.get` with `f=json`: non-2xx statuses and network failures throw, a
success carries the raw ESRI feature list (absent when the payload has
none). -/
inductive B2Axios
  | ok (features : Option (List EsriFeature))
  | thrown (msg : String)
deriving DecidableEq, Repr

/-- `fetchAnyTMDL`: probe the TMDL sublayers in order until one returns a
nonempty feature list; a thrown request propagates — there is no per-layer
catch here. -/
def fetchAnyTMDLAux (u : String → B2Axios) (assetId : String) :
    List (String × String) → Except String (List EsriFeature)
  | [] => .ok []
  | l :: rest =>
    match u (qUrl l.1 l.2 assetId) with
    | .thrown msg => .error msg
    | .ok feats? =>
      match feats?.getD [] with
      | [] => fetchAnyTMDLAux u assetId rest
      | f :: fs => .ok (f :: fs)

/-- `fetchFeatures(datasetKey, assetId)` of the pooled bulk variant. -/
def fetchFeatures (u : String → B2Axios) (datasetKey assetId : String) :
    Except String (List EsriFeature) :=
  match findB2Dataset datasetKey with
  | none => .error ("Unknown dataset '" ++ datasetKey ++ "'")
  | some d =>
    if datasetKey = "mdsha_tmdl_any" then fetchAnyTMDLAux u assetId d.layers
    else
      match u (qUrl d.base d.idField assetId) with
      | .thrown msg => .error msg
      | .ok feats? => .ok (feats?.getD [])

/-- The filename sanitizer of the pooled bulk variant: collapse unsafe runs
to underscores, strip leading underscores, keep at most 80 characters, and
fall back to "asset" when empty. -/
def safeNameB (s : String) : String :=
  let t : String := ⟨safeAux false s.data⟩
  let t2 : String := ⟨t.data.dropWhile (· = '_')⟩
  jsOr ⟨t2.data.take 80⟩ "asset"

/-- The extension slice `name.slice(name.lastIndexOf("."))` for the fixed
shapefile part names. -/
def extOf (name : String) : String :=
  ⟨'.' :: (name.data.reverse.takeWhile (· ≠ '.')).reverse⟩

/-- Lookup in a Mapshaper output file map. -/
def lookupFile (files : List (String × String)) (name : String) : Option String :=
  (files.find? (·.1 = name)).map (·.2)

/-- What one pooled-bulk worker contributes: zip entries for a resolved
item, or a row for the skipped list when the item had no feature. -/
inductive DoOneResult
  | added (entries : List (String × String))
  | skippedRow (assetId dataset reason : String)
deriving DecidableEq, Repr

/-- The `doOne` worker of the pooled bulk variant.  `msApply` is the external
Mapshaper run, a pure function from the command line and the input feature
list to the output file map.  A thrown fetch and an unsupported format
propagate as errors; a zero-feature item goes to the skipped list; otherwise
the produced files are added under the sanitized asset name. -/
def doOne (u : String → B2Axios) (msApply : String → List EsriFeature → List (String × String))
    (format : String) (row : String × String) : Except String DoOneResult :=
  let assetId := row.1
  let dataset := row.2
  match fetchFeatures u dataset assetId with
  | .error e => .error e
  | .ok [] => .ok (.skippedRow assetId dataset "no feature found")
  | .ok (f :: fs) =>
    let feats := f :: fs
    let outBase := safeNameB assetId
    if format = "geojson" then
      let files := msApply "-i in.json -proj wgs84 -o out.geojson" feats
      match lookupFile files "out.geojson" with
      | some buf => .ok (.added [(outBase ++ ".geojson", buf)])
      | none => .ok (.added [])
    else if format = "kml" then
      let files := msApply "-i in.json -proj wgs84 -o out.kml" feats
      match lookupFile files "out.kml" with
      | some buf => .ok (.added [(outBase ++ ".kml", buf)])
      | none => .ok (.added [])
    else if format = "shp" || format = "shapefile" then
      let files := msApply "-i in.json -proj wgs84 -o format=shapefile out.shp" feats
      let parts := ["out.shp", "out.shx", "out.dbf", "out.prj", "out.cpg"]
      .ok (.added (parts.filterMap (fun name =>
        (lookupFile files name).map (fun buf =>
          (outBase ++ "/" ++ outBase ++ extOf name, buf)))))
    else .error ("Unsupported format '" ++ format ++ "'")

/-- The `runPool` concurrency limiter, reduced to its observable contract in
this deterministic model: workers run over the items (the pool bounds
concurrency at 4; scheduling does not affect the handler response) and any
worker rejection rejects the whole pool. -/
def runPool (items : List (String × String))
    (worker : (String × String) → Except String DoOneResult) :
    Except String (List DoOneResult) :=
  items.mapM worker

/-- A bulk handler outcome: a JSON error body or a ZIP download given by its
entry list. -/
inductive BulkResult
  | json (status : Nat) (error : String)
  | zip (filename : String) (entries : List (String × String))
deriving DecidableEq, Repr

/-- The pooled bulk handler on `{items, defaultDataset, format}` (rows are
(assetId, dataset) with the empty string for absent members).  Note the ZIP
contains only the entries the workers added: this variant writes no manifest
file, and a worker rejection surfaces as a 500 JSON response. -/
def bulk2Handler (u : String → B2Axios)
    (msApply : String → List EsriFeature → List (String × String))
    (items : List (String × String)) (defaultDataset format0 : String) : BulkResult :=
  let format := jsLower (jsOr format0 "kml")
  let dd := jsTrim defaultDataset
  if items.isEmpty then .json 400 "No items provided."
  else
    let items2 := items.map (fun r => (jsTrim r.1, jsTrim (jsOr r.2 dd)))
    let toProcess := items2.filter (fun r => r.1 ≠ "" && r.2 ≠ "")
    if toProcess.isEmpty then
      .json 400 "Every row needs a dataset. Choose a default or include a second CSV column."
    else
      match runPool toProcess (doOne u msApply format) with
      | .error e => .json 500 e
      | .ok outcomes =>
        let entries := outcomes.flatMap (fun o =>
          match o with
          | .added es => es
          | .skippedRow _ _ _ => [])
        if entries.isEmpty then .json 404 "No features found for any row."
        else
          .zip (if format = "geojson" then "mapbuddy_geojson.zip"
                else if format = "shp" || format = "shapefile" then "mapbuddy_shapefile.zip"
                else "mapbuddy_kml.zip") entries

/-! ### The centroid computation of api/locate.js -/

/-- The vertex pairs the shoelace loop visits: (previous, current) with
wraparound, starting at (last, first). -/
def cyclicPairs (ring : List (ℚ × ℚ)) : List ((ℚ × ℚ) × (ℚ × ℚ)) :=
  (ring.rotate (ring.length - 1)).zip ring

/-- The shoelace accumulators (a, cx, cy) of `centroidPolygon`. -/
def shoelaceSums (ring : List (ℚ × ℚ)) : ℚ × ℚ × ℚ :=
  (cyclicPairs ring).foldl (fun acc pq =>
    let f := pq.1.1 * pq.2.2 - pq.2.1 * pq.1.2
    (acc.1 + f, acc.2.1 + (pq.1.1 + pq.2.1) * f, acc.2.2 + (pq.1.2 + pq.2.2) * f))
    (0, 0, 0)

/-- `bboxCenter` of api/locate.js: the center of the bounding box.  The JS
starts from infinite bounds and would produce NaN coordinates on an empty
list; here the empty case is `none` and the nonempty fold starts at the
first vertex, which agrees with the JS fold. -/
def bboxCenter (ring : List (ℚ × ℚ)) : Option (ℚ × ℚ) :=
  match ring with
  | [] => none
  | c :: cs =>
    let b := cs.foldl (fun (b : (ℚ × ℚ) × (ℚ × ℚ)) p =>
      ((min b.1.1 p.1, min b.1.2 p.2), (max b.2.1 p.1, max b.2.2 p.2)))
      ((c.1, c.2), (c.1, c.2))
    some ((b.1.1 + b.2.1) / 2, (b.1.2 + b.2.2) / 2)

/-- `centroidPolygon` of api/locate.js: shoelace centroid of the first ring,
falling back to the bounding-box center when the signed area accumulator is
zero.  The JS dereferences `rings[0]` and would crash on an empty rings
array; here that case is `none`. -/
def centroidPolygon (rings : List (List (ℚ × ℚ))) : Option (ℚ × ℚ) :=
  match rings with
  | [] => none
  | ring :: _ =>
    let s := shoelaceSums ring
    if s.1 = 0 then bboxCenter ring
    else
      let a := s.1 * (1 / 2 : ℚ)
      some (s.2.1 / (6 * a), s.2.2 / (6 * a))

/-! ### Concrete stub upstreams and inputs used by the theorems below -/

deriving instance DecidableEq for Except

/-- Base URL of the TMDL structures layer (first TMDL_ANY layer). -/
def structuresBase : String :=
  "https://maps.roads.maryland.gov/arcgis/rest/services/BayRestoration/TMDLBayRestorationViewer_Maryland_MDOTSHA/FeatureServer/0"

/-- Base URL of the TMDL retrofits layer (second TMDL_ANY layer). -/
def retrofitsBase : String :=
  "https://maps.roads.maryland.gov/arcgis/rest/services/BayRestoration/TMDLBayRestorationViewer_Maryland_MDOTSHA/FeatureServer/1"

/-- Whether a TMDL where-clause belongs to the fuzzy pass: the first
disjunct of the structures and retrofits layers opens with
`UPPER(SWM_FAC_NO) LIKE` there and with `UPPER(SWM_FAC_NO) =` on the exact
pass. -/
def whIsLike (wh : String) : Bool := startsWithStr wh "UPPER(SWM_FAC_NO) LIKE"

/-- A stub upstream on which the earlier TMDL layer (structures) matches only
on the fuzzy LIKE pass while the later layer (retrofits) matches only on the
exact pass, everything else returning zero features. -/
def u1ce (base wh : String) : HttpResult :=
  if base = retrofitsBase && !whIsLike wh then
    .ok [{ attributes := [("NAME", .str "B")], geometry := { xy := some (1, 2) } }]
  else if base = structuresBase && whIsLike wh then
    .ok [{ attributes := [("NAME", .str "A")], geometry := { xy := some (3, 4) } }]
  else .ok []

/-- A stub upstream on which only the fuzzy LIKE pass of the structures
layer matches. -/
def u6ce (base wh : String) : HttpResult :=
  if base = structuresBase && whIsLike wh then
    .ok [{ attributes := [("SWM_FAC_NO", .str "909 ZZ")], geometry := { xy := some (5, 6) } }]
  else .ok []

/-- A stub upstream on which only the exact pass of the structures layer
matches. -/
def u6w (base wh : String) : HttpResult :=
  if base = structuresBase && !whIsLike wh then
    .ok [{ attributes := [("SWM_FAC_NO", .str "909ZZ")], geometry := { xy := some (5, 6) } }]
  else .ok []

/-- An upstream whose every request throws. -/
def uAllThrown : String → AxiosResult := fun _ => .thrown

/-- An upstream whose every request succeeds with zero features. -/
def uAllEmpty : String → AxiosResult := fun _ => .resp 200 (some [])

/-- A bulk upstream whose every request throws. -/
def vAllThrown : String → BulkAxios := fun _ => .thrown "timeout of 30000ms exceeded"

/-- A bulk upstream whose every request succeeds with zero features. -/
def vAllEmpty : String → BulkAxios := fun _ => .ok (some [])

/-- Base URL of the Fairfax stormwater facilities layer. -/
def fairfaxBase : String :=
  "https://www.fairfaxcounty.gov/mercator/rest/services/DPWES/StwFieldMap/MapServer/7"

/-- A pooled-bulk upstream on which the request for asset WP2222 times out
and every other request resolves one point feature. -/
def u7ce : String → B2Axios := fun url =>
  if url = qUrl fairfaxBase "FACILITY_ID" "WP2222" then .thrown "timeout of 20000ms exceeded"
  else .ok (some [{ attributes := [], geometry := { xy := some (0, 0) } }])

/-- A pooled-bulk upstream on which the request for asset WP2222 cleanly
returns zero features and every other request resolves one point feature. -/
def u7b : String → B2Axios := fun url =>
  if url = qUrl fairfaxBase "FACILITY_ID" "WP2222" then .ok (some [])
  else .ok (some [{ attributes := [], geometry := { xy := some (0, 0) } }])

/-- A stub Mapshaper run producing one KML output file. -/
def ms7 : String → List EsriFeature → List (String × String) := fun _ _ => [("out.kml", "<kml/>")]

/-- A three-item pooled-bulk request against the Fairfax dataset. -/
def items7 : List (String × String) :=
  [("WP1111", "fairfax_bmps"), ("WP2222", "fairfax_bmps"), ("WP3333", "fairfax_bmps")]

/-- An upstream on which every request returns zero features. -/
def uZero : String → String → HttpResult := fun _ _ => .ok []

/-- A Mapshaper stub producing no output file. -/
def encNone : Feature → String → Option String := fun _ _ => none

/-- The feature `u6w` resolves: the exact match of the structures layer. -/
def f6w : Feature :=
  { properties := [("SWM_FAC_NO", .str "909ZZ"), ("_assetId", .str "909ZZ"),
      ("_dataset", .str "mdsha_tmdl_structures"),
      ("_sourceLabel", .str "TMDL — Stormwater Control Structures"),
      ("_matchMode", .str "exact")],
    geometry := .point (5, 6) }

/-- The degenerate (collinear) test ring used for the centroid claim. -/
def collinearRing : List (ℚ × ℚ) := [(0, 0), (1, 1), (2, 2)]

/-- The two test rings used for the geometry-translation claim. -/
def ringA : List (ℚ × ℚ) := [(0, 0), (1, 0), (1, 1)]

/-- Second test ring: disjoint from `ringA`. -/
def ringB : List (ℚ × ℚ) := [(2, 2), (3, 2), (3, 3)]

/-! ## Helper lemmas -/

/-- Unfolding of `joinOr` on a list with at least two clauses. -/
theorem joinOr_cons_cons (x y : String) (xs : List String) :
    joinOr (x :: y :: xs) = x ++ " OR " ++ joinOr (y :: xs) := rfl

/-- The `go` accumulator of `String.intercalate` with the OR separator
produces the recursive disjunction. -/
theorem intercalate_go_joinOr : ∀ (as : List String) (acc : String),
    String.intercalate.go acc " OR " as = joinOr (acc :: as) := by
  intro as
  induction as with
  | nil => intro acc; rfl
  | cons a as ih =>
    intro acc
    rw [String.intercalate.go]
    rw [ih (acc ++ " OR " ++ a)]
    cases as with
    | nil => rfl
    | cons b bs =>
      rw [joinOr_cons_cons, joinOr_cons_cons, joinOr_cons_cons]
      simp [String.append_assoc]

/-- Joining with the OR separator agrees with the spec-side `joinOr`. -/
theorem intercalate_or_eq_joinOr : ∀ l : List String,
    String.intercalate " OR " l = joinOr l := by
  intro l
  cases l with
  | nil => rfl
  | cons a as =>
    rw [String.intercalate]
    exact intercalate_go_joinOr as a

/-- The recursive quote doubling equals the flat-map form. -/
theorem escChars_eq_flatMap : ∀ l : List Char,
    escChars l = l.flatMap (fun c => if c = quoteChar then [quoteChar, quoteChar] else [c]) := by
  intro l
  induction l with
  | nil => rfl
  | cons c cs ih =>
    rw [escChars, List.flatMap_cons, ih]
    by_cases h : c = quoteChar <;> simp [h]

/-- The source's escaping agrees with the spec's quote doubling. -/
theorem esc_eq_specQuoteDouble (v : String) : esc v = specQuoteDouble v := by
  rw [esc, specQuoteDouble, escChars_eq_flatMap]

/-- One step of the pass loop is `passStep` of the pass scan and the rest. -/
theorem scanPasses_cons (u : String → String → HttpResult) (a : String)
    (ts : List String) (p : String) (ps : List String) :
    scanPasses u a ts (p :: ps) = passStep (scanKeys u a p ts) (scanPasses u a ts ps) := by
  simp only [scanPasses, passStep]

/-- A linear scan over the pairs of one pass prepended to further pairs is
that pass's scan sequenced before the rest. -/
theorem scanPairs_pass_append (u : String → String → HttpResult) (a pass : String) :
    ∀ (ks : List String) (rest : List (String × String)),
    scanPairs u a (ks.map (fun k => (pass, k)) ++ rest) =
    passStep (scanKeys u a pass ks) (scanPairs u a rest) := by
  intro ks
  induction ks with
  | nil =>
    intro rest
    simp [scanKeys, passStep]
  | cons k ks ih =>
    intro rest
    simp only [List.map_cons, List.cons_append, scanPairs, scanKeys, List.append_eq]
    rcases hfd : findDataset k with _ | ds
    · simp only [hfd]
      exact ih rest
    · simp only [hfd]
      rcases hfetch : fetchArcgisAsGeoJSON u ds.base
          (if pass = "exact" then buildWhereExact ds.idFields a (startsWithStr k "mdsha_tmdl_")
           else buildWhereLike ds.idFields a (startsWithStr k "mdsha_tmdl_")) with e | feats
      · simp [hfetch, passStep]
      · rcases feats with _ | ⟨f, fs⟩
        · simp only [hfetch]
          rw [ih rest]
          rcases hsk : scanKeys u a pass ks with ⟨r1, r2⟩
          rcases r1 with e | g
          · simp [passStep]
          · rcases g with _ | g <;> simp [passStep]
        · simp [hfetch, passStep]

/-- A feature produced by one pass scan is the provenance tagging of an
upstream feature with that pass. -/
theorem scanKeys_ok_some (u : String → String → HttpResult) (a pass : String) :
    ∀ (ks : List String) (f : Feature) (log : QueryLog),
    scanKeys u a pass ks = (.ok (some f), log) →
    ∃ f0 key lbl, f = tagFeature f0 a key lbl pass := by
  intro ks
  induction ks with
  | nil =>
    intro f log h
    simp [scanKeys] at h
  | cons k ks ih =>
    intro f log h
    simp only [scanKeys] at h
    rcases hfd : findDataset k with _ | ds
    · simp only [hfd] at h
      exact ih f log h
    · simp only [hfd] at h
      rcases hfetch : fetchArcgisAsGeoJSON u ds.base
          (if pass = "exact" then buildWhereExact ds.idFields a (startsWithStr k "mdsha_tmdl_")
           else buildWhereLike ds.idFields a (startsWithStr k "mdsha_tmdl_")) with e | feats
      · simp [hfetch] at h
      · rcases feats with _ | ⟨f1, fs⟩
        · simp only [hfetch, Prod.mk.injEq] at h
          exact ih f (scanKeys u a pass ks).2 (by rw [← h.1])
        · simp only [hfetch, Prod.mk.injEq] at h
          obtain h1 := Option.some.inj (Except.ok.inj h.1)
          exact ⟨f1, k, ds.label, h1.symm⟩

/-- A feature produced by the pass loop comes from one of its passes. -/
theorem scanPasses_ok_some (u : String → String → HttpResult) (a : String) (ts : List String) :
    ∀ (ps : List String) (f : Feature) (log : QueryLog),
    scanPasses u a ts ps = (.ok (some f), log) →
    ∃ pass, pass ∈ ps ∧ ∃ f0 key lbl, f = tagFeature f0 a key lbl pass := by
  intro ps
  induction ps with
  | nil =>
    intro f log h
    simp [scanPasses] at h
  | cons p ps ih =>
    intro f log h
    rw [scanPasses_cons] at h
    simp only [passStep] at h
    rcases hsk : scanKeys u a p ts with ⟨r1, r2⟩
    simp only [hsk] at h
    rcases r1 with e | g
    · simp at h
    · rcases g with _ | g
      · simp only [Prod.mk.injEq] at h
        obtain ⟨pass, hmem, rest⟩ :=
          ih f (scanPasses u a ts ps).2 (by rw [← h.1])
        exact ⟨pass, List.mem_cons_of_mem _ hmem, rest⟩
      · simp only [Prod.mk.injEq] at h
        obtain h1 := Option.some.inj (Except.ok.inj h.1)
        obtain ⟨f0, key, lbl, hf⟩ := scanKeys_ok_some u a p ts f r2 (by rw [hsk, h1])
        exact ⟨p, List.mem_cons_self _ _, f0, key, lbl, hf⟩

/-- In-place key update then lookup at the same key yields the new value
(the key was present). -/
theorem lookupProp_map_set (k : String) (v : AValue) :
    ∀ props : List (String × AValue), props.any (·.1 = k) = true →
    lookupProp (props.map (fun p => if p.1 = k then (k, v) else p)) k = some v := by
  intro props
  induction props with
  | nil => intro h; simp at h
  | cons p ps ih =>
    intro h
    by_cases hp : p.1 = k
    · simp [lookupProp, List.find?, hp]
    · simp only [List.any_cons, decide_eq_true_eq, Bool.or_eq_true] at h
      rcases h with h | h
      · exact absurd h hp
      · simp only [List.map_cons, if_neg hp, lookupProp, List.find?]
        rw [decide_eq_false hp]
        exact ih (by simpa using h)

/-- Appending a fresh key then looking it up yields the new value. -/
theorem lookupProp_append_single (k : String) (v : AValue) :
    ∀ props : List (String × AValue), props.any (·.1 = k) = false →
    lookupProp (props ++ [(k, v)]) k = some v := by
  intro props
  induction props with
  | nil => simp [lookupProp, List.find?]
  | cons p ps ih =>
    intro h
    simp only [List.any_cons, Bool.or_eq_false_iff, decide_eq_false_iff_not] at h
    simp only [List.cons_append, lookupProp, List.find?]
    rw [decide_eq_false h.1]
    exact ih (by simpa using h.2)

/-- Lookup of the updated key after `setProp` yields the new value. -/
theorem lookupProp_setProp_self (props : List (String × AValue)) (k : String) (v : AValue) :
    lookupProp (setProp props k v) k = some v := by
  unfold setProp
  by_cases hany : props.any (·.1 = k)
  · rw [if_pos hany]
    exact lookupProp_map_set k v props hany
  · rw [if_neg hany]
    rw [Bool.not_eq_true] at hany
    exact lookupProp_append_single k v props hany

/-- In-place key update leaves lookups at other keys unchanged. -/
theorem lookupProp_map_set_ne (k kk : String) (v : AValue) (hne : k ≠ kk) :
    ∀ props : List (String × AValue),
    lookupProp (props.map (fun p => if p.1 = kk then (kk, v) else p)) k = lookupProp props k := by
  intro props
  induction props with
  | nil => rfl
  | cons p ps ih =>
    by_cases hp : p.1 = kk
    · simp only [List.map_cons, if_pos hp, lookupProp, List.find?]
      rw [decide_eq_false (fun hc : kk = k => hne hc.symm),
        decide_eq_false (fun hc : p.1 = k => hne ((hc ▸ hp : k = kk)))]
      exact ih
    · simp only [List.map_cons, if_neg hp, lookupProp, List.find?]
      by_cases hk : p.1 = k
      · rw [decide_eq_true hk]
      · rw [decide_eq_false hk]
        exact ih

/-- Appending a pair under a different key leaves lookups unchanged. -/
theorem lookupProp_append_single_ne (kk k : String) (v : AValue) (hne : kk ≠ k) :
    ∀ props : List (String × AValue),
    lookupProp (props ++ [(kk, v)]) k = lookupProp props k := by
  intro props
  induction props with
  | nil =>
    simp only [List.nil_append, lookupProp, List.find?]
    rw [decide_eq_false hne]
  | cons p ps ih =>
    simp only [List.cons_append, lookupProp, List.find?]
    by_cases hk : p.1 = k
    · rw [decide_eq_true hk]
    · rw [decide_eq_false hk]
      exact ih

/-- `setProp` at one key leaves lookups at every other key unchanged. -/
theorem lookupProp_setProp_ne (props : List (String × AValue)) (k kk : String) (v : AValue)
    (hne : k ≠ kk) :
    lookupProp (setProp props kk v) k = lookupProp props k := by
  unfold setProp
  by_cases hany : props.any (·.1 = kk)
  · rw [if_pos hany]
    exact lookupProp_map_set_ne k kk v hne props
  · rw [if_neg hany]
    exact lookupProp_append_single_ne kk k v (fun hc => hne hc.symm) props

/-- The injected `_matchMode` value is the pass that matched. -/
theorem lookupProp_injectProv_matchMode (props : List (String × AValue))
    (a key lbl pass : String) :
    lookupProp (injectProv props a key lbl pass) "_matchMode" = some (.str pass) :=
  lookupProp_setProp_self _ _ _

/-- Provenance injection leaves every key other than the four injected ones
unchanged. -/
theorem lookupProp_injectProv_other (props : List (String × AValue)) (a key lbl pass k : String)
    (h1 : k ≠ "_assetId") (h2 : k ≠ "_dataset") (h3 : k ≠ "_sourceLabel")
    (h4 : k ≠ "_matchMode") :
    lookupProp (injectProv props a key lbl pass) k = lookupProp props k := by
  unfold injectProv
  rw [lookupProp_setProp_ne _ _ _ _ h4, lookupProp_setProp_ne _ _ _ _ h3,
    lookupProp_setProp_ne _ _ _ _ h2, lookupProp_setProp_ne _ _ _ _ h1]

/-- The field probe of src/api/convert.js returns nothing when every request
throws. -/
theorem probeFields_thrown (u : String → AxiosResult) (h : ∀ q, u q = .thrown)
    (b a : String) : ∀ fs : List String, probeFields u b a fs = none := by
  intro fs
  induction fs with
  | nil => rfl
  | cons f fs ih => simp [probeFields, h, ih]

/-- The field probe of src/api/convert.js returns nothing when every request
succeeds with zero features. -/
theorem probeFields_zero (u : String → AxiosResult) (h : ∀ q, u q = .resp 200 (some []))
    (b a : String) : ∀ fs : List String, probeFields u b a fs = none := by
  intro fs
  induction fs with
  | nil => rfl
  | cons f fs ih => simp [probeFields, h, ih]

/-- The sequential bulk row classifier cannot distinguish an upstream that
throws on every request from one that returns zero features on every
request. -/
theorem bulkRow_conflates (vT vE : String → BulkAxios) (msg dd : String)
    (row : String × String)
    (hT : ∀ q, vT q = .thrown msg) (hE : ∀ q, vE q = .ok (some [])) :
    bulkRowOutcome vT dd row = bulkRowOutcome vE dd row := by
  unfold bulkRowOutcome
  by_cases hc : jsTrim row.1 = "" || normalizeDs (jsOr row.2 dd) = ""
  · simp [hc]
  · simp only [hc]
    unfold fetchFeatureB
    rcases hfd : findBulkDataset (normalizeDs (jsOr row.2 dd)) with _ | d
    · rfl
    · simp [hT, hE]

/-! ## Claim theorems -/

set_option maxRecDepth 100000 in
/-- C1 (counterexample): on asset "101SR" against the grouped TMDL dataset,
with an upstream on which the first candidate layer (structures) matches
only on the fuzzy LIKE pass while the second layer (retrofits) matches only
on the exact pass, the handler loop returns the later layer's exact match —
not, as the claim states, the earlier layer's fuzzy match.  The loop runs
the exact pass over all candidate layers before any fuzzy probe. -/
theorem exact_later_layer_beats_fuzzy_earlier :
    List.indexOf "mdsha_tmdl_structures" TMDL_ANY < List.indexOf "mdsha_tmdl_retrofits" TMDL_ANY ∧
    fetchArcgisAsGeoJSON u1ce structuresBase (buildWhereLike tmdlFields "101SR" true) =
      .ok [{ properties := [("NAME", .str "A")], geometry := .point (3, 4) }] ∧
    fetchArcgisAsGeoJSON u1ce structuresBase (buildWhereExact tmdlFields "101SR" true) = .ok [] ∧
    (resolveFeature u1ce "101SR" "mdsha_tmdl_any").1 =
      .ok (some { properties := [("NAME", .str "B"), ("_assetId", .str "101SR"),
        ("_dataset", .str "mdsha_tmdl_retrofits"), ("_sourceLabel", .str "TMDL — Retrofits"),
        ("_matchMode", .str "exact")], geometry := .point (1, 2) }) := by
  refine ⟨by decide, by decide, by decide, by decide⟩

/-- C1 (amended): the resolution loop of api/convert.js searches the
(pass, layer) combinations in pass-major order — the exact pass over every
candidate layer first, then the fuzzy LIKE pass over every candidate layer —
so an exact match on a later layer takes precedence over a fuzzy match on an
earlier layer. -/
theorem resolveFeature_eq_passMajor (u : String → String → HttpResult) (a dk : String) :
    resolveFeature u a dk = scanPairs u a (passMajorPairs (targetsOf dk)) := by
  rw [resolveFeature, scanPasses_cons, scanPasses_cons]
  have h2 := scanPairs_pass_append u a "like" (targetsOf dk) []
  have h1 := scanPairs_pass_append u a "exact" (targetsOf dk)
    ((targetsOf dk).map (fun k => ("like", k)) ++ [])
  simp only [passMajorPairs, List.flatMap_cons, List.flatMap_nil, List.append_nil] at *
  rw [h1, h2]
  rfl

set_option maxRecDepth 100000 in
/-- C2 (counterexample): a native geometry with two rings translates to a
single Polygon holding both rings, not to the MultiPolygon of two
single-ring polygons the claim states. -/
theorem two_rings_still_polygon :
    esriToGeoJSONFeature { attributes := [], geometry := { rings := some [ringA, ringB] } } =
      some { properties := [], geometry := .polygon [ringA, ringB] } ∧
    Geometry.polygon [ringA, ringB] ≠ Geometry.multiPolygon [[ringA], [ringB]] := by
  refine ⟨by decide, by decide⟩

/-- C2 (amended): whenever the native geometry carries a rings array, the
Geometry Translator returns a Polygon whose coordinate array is the entire
rings array — in particular a one-ring array yields a Polygon with that ring
as its sole boundary, and a multi-ring array still yields a single Polygon,
never a MultiPolygon. -/
theorem esriRings_always_polygon (f : EsriFeature) (rs : List (List (ℚ × ℚ)))
    (h : f.geometry.rings = some rs) :
    esriToGeoJSONFeature f = some { properties := f.attributes, geometry := .polygon rs } := by
  simp [esriToGeoJSONFeature, h]

/-- C2 (witness): the amended theorem applied to a concrete one-ring
feature. -/
theorem esriRings_always_polygon_witness :
    esriToGeoJSONFeature { attributes := [], geometry := { rings := some [ringA] } } =
      some { properties := [], geometry := .polygon [ringA] } :=
  esriRings_always_polygon { attributes := [], geometry := { rings := some [ringA] } } [ringA] rfl

set_option maxRecDepth 100000 in
/-- C3 (counterexample): the /convert field probe returns the same `none`
for an upstream on which every request throws as for one on which every
request cleanly returns zero features, and the bulk row classifier records
the identical "not found" manifest row for both — the two outcomes are
mapped to the same result. -/
theorem upstream_error_equals_zero_features :
    fetchOneFeatureAsGeoJSON uAllThrown "fairfax_bmps" "WP1234" = none ∧
    fetchOneFeatureAsGeoJSON uAllEmpty "fairfax_bmps" "WP1234" = none ∧
    bulkRowOutcome vAllThrown "" ("WP1234", "fairfax_bmps") =
      .miss "WP1234" "fairfax_bmps" "not found" ∧
    bulkRowOutcome vAllEmpty "" ("WP1234", "fairfax_bmps") =
      .miss "WP1234" "fairfax_bmps" "not found" := by
  refine ⟨by decide, by decide, by decide, by decide⟩

/-- C3 (amended): the code conflates the two outcomes: for any dataset and
asset id, a probe whose upstream requests all throw is indistinguishable in
the /convert probe result from one whose requests all return zero features,
and the sequential bulk classifier yields identical outcomes (a "not found"
miss) for both upstreams. -/
theorem probe_conflation (uT uE : String → AxiosResult) (vT vE : String → BulkAxios)
    (dk id msg dd : String) (row : String × String)
    (hT : ∀ q, uT q = .thrown) (hE : ∀ q, uE q = .resp 200 (some []))
    (hvT : ∀ q, vT q = .thrown msg) (hvE : ∀ q, vE q = .ok (some [])) :
    fetchOneFeatureAsGeoJSON uT dk id = fetchOneFeatureAsGeoJSON uE dk id ∧
    bulkRowOutcome vT dd row = bulkRowOutcome vE dd row := by
  constructor
  · unfold fetchOneFeatureAsGeoJSON
    rcases hfd : findConvertDataset dk with _ | cfg
    · simp only [hfd]
    · simp only [hfd]
      rw [probeFields_thrown uT hT, probeFields_zero uE hE]
  · exact bulkRow_conflates vT vE msg dd row hvT hvE

/-- C3 (witness): the amended theorem applied to the concrete all-throwing
and all-empty upstreams. -/
theorem probe_conflation_witness :
    fetchOneFeatureAsGeoJSON uAllThrown "mdsha_landscape" "LOD_7" =
      fetchOneFeatureAsGeoJSON uAllEmpty "mdsha_landscape" "LOD_7" ∧
    bulkRowOutcome vAllThrown "" ("LOD_7", "mdsha_landscape") =
      bulkRowOutcome vAllEmpty "" ("LOD_7", "mdsha_landscape") :=
  probe_conflation uAllThrown uAllEmpty vAllThrown vAllEmpty "mdsha_landscape" "LOD_7"
    "timeout of 30000ms exceeded" "" ("LOD_7", "mdsha_landscape")
    (fun _ => rfl) (fun _ => rfl) (fun _ => rfl) (fun _ => rfl)

set_option maxRecDepth 100000 in
/-- C4 (counterexample): "123-ABC" matches the claim's regex (suffix of two
or more letters), so the claim requires the variant list to be exactly the
concatenated, hyphenated and spaced forms; but the source regex demands
exactly two letters, so "123-ABC" falls into the fallback, which yields five
entries, does not contain the spaced form "123 ABC", and is not the claimed
three-element list. -/
theorem tmdlVariants_claim_counterexample :
    claimNumSuffix (jsUpper (jsTrim "123-ABC")).data = some ("123".data, "ABC".data) ∧
    tmdlVariants "123-ABC" = ["123-ABC", "123ABC", "123-ABC", "123-ABC", "123-ABC"] ∧
    ¬ ("123 ABC" ∈ tmdlVariants "123-ABC") ∧
    tmdlVariants "123-ABC" ≠ ["123ABC", "123-ABC", "123 ABC"] := by
  refine ⟨by decide, by decide, by decide, by decide⟩

/-- C4 (amended): the Identifier Normalizer matches the trimmed upper-cased
id against digits + separator + EXACTLY TWO letters; on a match the variant
list is exactly the concatenated, hyphenated and spaced forms, and otherwise
it is exactly the five entries: the normalized original, the original with
hyphens stripped, the original with whitespace stripped, and the first
digits-letters run rewritten with a hyphen and with a space. -/
theorem tmdlVariants_cases (raw : String) :
    (∀ num suf, numSuffix2 (jsUpper (jsTrim raw)).data = some (num, suf) →
      tmdlVariants raw =
        [⟨num ++ suf⟩, (⟨num⟩ : String) ++ "-" ++ ⟨suf⟩, (⟨num⟩ : String) ++ " " ++ ⟨suf⟩]) ∧
    (numSuffix2 (jsUpper (jsTrim raw)).data = none →
      tmdlVariants raw =
        [jsUpper (jsTrim raw), removeHyphens (jsUpper (jsTrim raw)),
         removeWs (jsUpper (jsTrim raw)),
         ⟨replaceDigitsLetters '-' (jsUpper (jsTrim raw)).data⟩,
         ⟨replaceDigitsLetters ' ' (jsUpper (jsTrim raw)).data⟩]) := by
  constructor
  · intro num suf h
    simp [tmdlVariants, h]
  · intro h
    simp [tmdlVariants, h]

/-- C4 (witness): the amended case split applied to the matching id "123AB"
and the non-matching id "WP4021". -/
theorem tmdlVariants_cases_witness :
    tmdlVariants "123AB" = ["123AB", "123-AB", "123 AB"] ∧
    tmdlVariants "WP4021" = ["WP4021", "WP4021", "WP4021", "WP4021", "WP4021"] := by
  constructor
  · exact ((tmdlVariants_cases "123AB").1 "123".data "AB".data (by decide)).trans (by decide)
  · exact ((tmdlVariants_cases "WP4021").2 (by decide)).trans (by decide)

/-- C5: the exact-mode predicate builder produces, for every field list,
value and variants switch, the OR-disjunction over every (field, variant)
pair of UPPER(field) = UPPER('variant') with single quotes doubled, exactly
as the spec-side restatement produces it; on fields [FACILITY_ID] and value
AB12 it yields the stated predicate, and an embedded quote is doubled. -/
theorem buildWhereExact_spec :
    (∀ fields value useVariants, buildWhereExact fields value useVariants =
      specExactPredicate fields (if useVariants then tmdlVariants value else [value])) ∧
    buildWhereExact ["FACILITY_ID"] "AB12" false = "UPPER(FACILITY_ID) = UPPER('AB12')" ∧
    esc "O'Brien" = "O''Brien" := by
  refine ⟨?_, by decide, by decide⟩
  intro fields value useVariants
  simp only [buildWhereExact, specExactPredicate, intercalate_or_eq_joinOr,
    esc_eq_specQuoteDouble]

set_option maxRecDepth 100000 in
/-- C6 (counterexample): on a like-pass match the resolved feature's
properties carry a FOURTH injected field `_sourceLabel` absent from the
upstream attributes, and the injected `_matchMode` value is the string
"like", which is neither "exact" nor "fuzzy". -/
theorem provenance_fields_counterexample :
    (resolveFeature u6ce "909ZZ" "mdsha_tmdl_any").1 =
      .ok (some { properties := [("SWM_FAC_NO", .str "909 ZZ"), ("_assetId", .str "909ZZ"),
        ("_dataset", .str "mdsha_tmdl_structures"),
        ("_sourceLabel", .str "TMDL — Stormwater Control Structures"),
        ("_matchMode", .str "like")], geometry := .point (5, 6) }) ∧
    lookupProp [("SWM_FAC_NO", AValue.str "909 ZZ")] "_sourceLabel" = none ∧
    AValue.str "like" ≠ AValue.str "exact" ∧
    AValue.str "like" ≠ AValue.str "fuzzy" := by
  refine ⟨by decide, by decide, by decide, by decide⟩

/-- C6 (amended): every successfully resolved feature's properties are the
upstream attributes with exactly the FOUR provenance fields `_assetId`,
`_dataset`, `_sourceLabel` and `_matchMode` injected — every other key maps
to its upstream value — and the injected `_matchMode` is one of the two
strings "exact" or "like". -/
theorem resolved_props_shape (u : String → String → HttpResult) (a dk : String) (f : Feature)
    (h : (resolveFeature u a dk).1 = .ok (some f)) :
    ∃ props key lbl pass,
      (pass = "exact" ∨ pass = "like") ∧
      f.properties = injectProv props a key lbl pass ∧
      lookupProp f.properties "_matchMode" = some (.str pass) ∧
      (∀ k, k ≠ "_assetId" → k ≠ "_dataset" → k ≠ "_sourceLabel" → k ≠ "_matchMode" →
        lookupProp f.properties k = lookupProp props k) := by
  have h' : scanPasses u a (targetsOf dk) ["exact", "like"] =
      (.ok (some f), (resolveFeature u a dk).2) := by
    rw [← h]
    exact Prod.mk.eta.symm
  obtain ⟨pass, hmem, f0, key, lbl, hf⟩ :=
    scanPasses_ok_some u a (targetsOf dk) ["exact", "like"] f (resolveFeature u a dk).2 h'
  refine ⟨f0.properties, key, lbl, pass, ?_, ?_, ?_, ?_⟩
  · simpa using hmem
  · rw [hf]; rfl
  · rw [hf]
    exact lookupProp_injectProv_matchMode f0.properties a key lbl pass
  · intro k k1 k2 k3 k4
    rw [hf]
    exact lookupProp_injectProv_other f0.properties a key lbl pass k k1 k2 k3 k4

set_option maxRecDepth 100000 in
/-- C6 (witness): the amended theorem applied to a concrete successful
resolution. -/
theorem resolved_props_shape_witness :
    ∃ props key lbl pass,
      (pass = "exact" ∨ pass = "like") ∧
      f6w.properties = injectProv props "909ZZ" key lbl pass ∧
      lookupProp f6w.properties "_matchMode" = some (.str pass) ∧
      (∀ k, k ≠ "_assetId" → k ≠ "_dataset" → k ≠ "_sourceLabel" → k ≠ "_matchMode" →
        lookupProp f6w.properties k = lookupProp props k) :=
  resolved_props_shape u6w "909ZZ" "mdsha_tmdl_any" f6w (by decide)

set_option maxRecDepth 100000 in
/-- C7 (code bug): in the pooled bulk variant, a three-item batch in which
only the second item's upstream call times out is answered with a 500 JSON
error — the worker rejection rejects the whole pool — instead of the
claimed 200 ZIP with two output files and a manifest row; and even when the
second item merely finds no feature, the ZIP contains the two output files
and no manifest entry for the failed item. -/
theorem bulk_pool_aborts_on_single_timeout :
    bulk2Handler u7ce ms7 items7 "" "kml" = .json 500 "timeout of 20000ms exceeded" ∧
    bulk2Handler u7b ms7 items7 "" "kml" =
      .zip "mapbuddy_kml.zip" [("WP1111.kml", "<kml/>"), ("WP3333.kml", "<kml/>")] := by
  refine ⟨by decide, by decide⟩

/-- C8: a /convert request with no dataset whose asset id matches none of
the three id-shape heuristics (WP + digits, LOD_ prefix, TMDL digits +
suffix) is answered with a 400 "unknown dataset" error, and the query log is
empty — no upstream request is issued and no default dataset is assumed. -/
theorem convert_dataset_required (id fmt : String) (u : String → String → HttpResult)
    (enc : Feature → String → Option String)
    (hne : id ≠ "")
    (h1 : isWpDigits (jsUpper (jsTrim id)) = false)
    (h2 : startsWithStr (jsUpper (jsTrim id)) "LOD_" = false)
    (h3 : isTmdlLike (jsUpper (jsTrim id)) = false) :
    convertHandler id "" fmt u enc =
      (.json 400 "Unknown dataset. Pick one or use a recognizable ID.", []) := by
  have hg : guessDatasetFromId id = none := by
    simp [guessDatasetFromId, hne, h1, h2, h3]
  simp [convertHandler, hne, hg]

/-- C8 (witness): the theorem applied to the unrecognizable id "XYZ". -/
theorem convert_dataset_required_witness :
    convertHandler "XYZ" "" "kml" uZero encNone =
      (.json 400 "Unknown dataset. Pick one or use a recognizable ID.", []) :=
  convert_dataset_required "XYZ" "kml" uZero encNone (by decide) (by decide) (by decide)
    (by decide)

/-- C9: the /convert pipeline is deterministic: two runs of the handler on
the same request body against upstreams that return the same response to
every request produce identical results — the output depends only on the
request and the upstream responses. -/
theorem convert_two_runs (a d fmt : String) (u1 u2 : String → String → HttpResult)
    (enc : Feature → String → Option String) (h : ∀ b w, u1 b w = u2 b w) :
    convertHandler a d fmt u1 enc = convertHandler a d fmt u2 enc := by
  have hu : u1 = u2 := funext fun b => funext fun w => h b w
  rw [hu]

/-- C9 (witness): the theorem applied to a concrete request and upstream. -/
theorem convert_two_runs_witness :
    convertHandler "WP1234" "fairfax_bmps" "kml" uZero encNone =
      convertHandler "WP1234" "fairfax_bmps" "kml" uZero encNone :=
  convert_two_runs "WP1234" "fairfax_bmps" "kml" uZero uZero encNone (fun _ _ => rfl)

/-- C10: for a polygon whose first ring is nonempty, when the shoelace area
accumulator is zero the centroid is the bounding-box center of that ring
(no division by the area happens), and in every case the centroid is some
pair of rationals. -/
theorem centroidPolygon_always (rings : List (List (ℚ × ℚ))) (r : List (ℚ × ℚ))
    (rest : List (List (ℚ × ℚ))) (hr : rings = r :: rest) (hne : r ≠ []) :
    ((shoelaceSums r).1 = 0 → centroidPolygon rings = bboxCenter r) ∧
    ∃ c, centroidPolygon rings = some c := by
  subst hr
  constructor
  · intro hz
    simp [centroidPolygon, hz]
  · by_cases hz : (shoelaceSums r).1 = 0
    · simp only [centroidPolygon, hz, if_pos rfl]
      rcases r with _ | ⟨c, cs⟩
      · exact absurd rfl hne
      · exact ⟨_, rfl⟩
    · simp only [centroidPolygon, if_neg hz]
      exact ⟨_, rfl⟩

/-- C10 (witness): the theorem applied to the degenerate collinear ring. -/
theorem centroidPolygon_always_witness :
    ((shoelaceSums collinearRing).1 = 0 →
      centroidPolygon [collinearRing] = bboxCenter collinearRing) ∧
    ∃ c, centroidPolygon [collinearRing] = some c :=
  centroidPolygon_always [collinearRing] collinearRing [] rfl (by decide)

end MapBuddy
